import Mathlib

/-!
Verification development for the Hardware Lab Management System
(ECE461L software lab team project).

The inventory-reservation core of the repository consists of the
MongoDB transaction scripts documented in `docs/database-schema.md`
("Hardware Checkout (Atomic Operation)" and "Hardware Check-in (Atomic
Operation)"), the client-side guards in
`frontend/src/components/HardwareInventoryPage.js` (`handleCheckout`,
`handleCheckin`) and the service layer
`frontend/src/services/hardwareService.js`.  This file gives a shallow
embedding of those operations and proves/refutes the specified
properties about them.

Modelling conventions:
* MongoDB `Number` fields are embedded as `Int` (a `$inc` may drive a
  counter negative, and nothing in the scripts prevents it).
* Dates (`new Date()`) are embedded as an `Int` millisecond timestamp
  passed in as a `now` parameter.
* A hardware document keeps the fields the transactions touch
  (`hw_name`, `total_capacity`, `available`, `checked_out`,
  `updated_at`); the static descriptive fields (`description`,
  `category`, `location`, `created_at`) are never read or written by
  the embedded operations and are omitted.
* A project's `hardware_checkouts` array is embedded as a
  `List CheckoutRecord` in array order; `$push` appends at the end,
  the positional operator `$` updates the first array element matched
  by the query, and `$pull` removes every element matching its
  predicate.
* A MongoDB multi-document transaction commits all of its writes or
  none of them; an operation that `throw`s inside the transaction is
  embedded as `Except.error` (no state change), a committed
  transaction as `Except.ok` carrying the new state.
-/

/-- Hardware inventory document (collection `hardwareDB` of
`docs/database-schema.md`): name, capacity counters and the
last-update timestamp. -/
structure Hardware where
  hw_name : String
  total_capacity : Int
  available : Int
  checked_out : Int
  updated_at : Int
  deriving Repr, DecidableEq

/-- Entry of a project's `hardware_checkouts` array (collection
`projectsDB` of `docs/database-schema.md`). -/
structure CheckoutRecord where
  hw_name : String
  quantity : Int
  checked_out_at : Int
  checked_out_by : String
  deriving Repr, DecidableEq

/-- Error thrown inside the checkout transaction of
`docs/database-schema.md`: `throw new Error ("Insufficient hardware
available")` when `hardware.available < requestedQty`. -/
inductive TxnError where
  | insufficientAvailability
  deriving Repr, DecidableEq

/-- Hardware Checkout (Atomic Operation) from
`docs/database-schema.md` lines 241-293, for one hardware document and
the checking-out project's `hardware_checkouts` array.  Step 1 reads
the hardware document and throws when `available < requestedQty`
(aborting the transaction, hence no state change); step 2 applies
`$inc { available: -requestedQty, checked_out: requestedQty }` and
sets `updated_at`; step 3 `$push`es a fresh checkout record onto the
project's array and sets the project's `updated_at` (the array in
array order is what we model of the project document). -/
def checkoutTxn (hw : Hardware) (checkouts : List CheckoutRecord)
    (requestedQty : Int) (now : Int) (username : String) :
    Except TxnError (Hardware × List CheckoutRecord) :=
  if hw.available < requestedQty then
    .error .insufficientAvailability
  else
    .ok ({ hw with
            available := hw.available - requestedQty,
            checked_out := hw.checked_out + requestedQty,
            updated_at := now },
         checkouts ++ [{ hw_name := hw.hw_name,
                         quantity := requestedQty,
                         checked_out_at := now,
                         checked_out_by := username }])

/-- MongoDB positional update
`updateOne ({ _id, "hardware_checkouts.hw_name": name },
{ $inc: { "hardware_checkouts.$.quantity": -returnQty } })`:
decrement the quantity of the first array element whose `hw_name`
matches; when no element matches, the filter matches no document and
nothing changes. -/
def decFirstMatching : List CheckoutRecord → String → Int → List CheckoutRecord
  | [], _, _ => []
  | r :: rs, name, q =>
    if r.hw_name = name then { r with quantity := r.quantity - q } :: rs
    else r :: decFirstMatching rs name q

/-- MongoDB `$pull: { hardware_checkouts: { quantity: { $lte: 0 } } }`:
remove every checkout record whose quantity is at most 0, whatever its
`hw_name`. -/
def pullNonPositive (checkouts : List CheckoutRecord) : List CheckoutRecord :=
  checkouts.filter (fun r => !(decide (r.quantity ≤ 0)))

/-- Hardware Check-in (Atomic Operation) from
`docs/database-schema.md` lines 296-343.  Step 1 applies
`$inc { available: returnQty, checked_out: -returnQty }`
unconditionally; step 2 decrements the first matching checkout record
of the project via the positional operator; step 3 `$pull`s every
record with `quantity ≤ 0`.  The transaction body contains no check
and no throw, so it always commits. -/
def checkinTxn (hw : Hardware) (checkouts : List CheckoutRecord)
    (returnQty : Int) (now : Int) : Hardware × List CheckoutRecord :=
  ({ hw with
      available := hw.available + returnQty,
      checked_out := hw.checked_out - returnQty,
      updated_at := now },
   pullNonPositive (decFirstMatching checkouts hw.hw_name returnQty))

/-- Commit semantics of the checkout transaction: `session.commitTransaction`
on success, `session.abortTransaction` (state unchanged) when the
transaction body throws. -/
def commitCheckout (hw : Hardware) (checkouts : List CheckoutRecord)
    (requestedQty : Int) (now : Int) (username : String) :
    Hardware × List CheckoutRecord :=
  match checkoutTxn hw checkouts requestedQty now username with
  | .ok s => s
  | .error _ => (hw, checkouts)

/-- Quantity input of the checkout/check-in form
(`HardwareInventoryPage.js`): the controlled `<input type="number">`
holds a string; it is either empty (falsy, caught by the first guard),
a decimal numeral with rational value `q`, or a string `parseInt`
cannot parse a leading integer from. -/
inductive NumInput where
  | empty
  | nonNumeric
  | num (q : ℚ)
  deriving Repr, DecidableEq

/-- JavaScript `parseInt` applied to the form's quantity string
(`const qty = parseInt(quantity)` in `HardwareInventoryPage.js`, also
`parseInt(quantity)` in `hardwareService.js`): it parses the leading
integer part of the decimal numeral, i.e. truncates the value toward
zero, and yields `NaN` (here `none`) on an empty or non-numeric
string. -/
def jsParseInt : NumInput → Option Int
  | .empty => none
  | .nonNumeric => none
  | .num q => some (q.num.tdiv q.den)

/-- Outcome of a submit handler in `HardwareInventoryPage.js`: either
the handler returns early with `setError msg`, or it reaches the
service call with the parsed quantity. -/
inductive UIAction where
  | rejected (msg : String)
  | submit (qty : Int)
  deriving Repr, DecidableEq

/-- Error message of the missing-field guard in `handleCheckout` /
`handleCheckin`. -/
def msgSelectProject : String := "Please select a project and enter quantity"

/-- Error message of the quantity guard in `handleCheckout` /
`handleCheckin`. -/
def msgInvalidQuantity : String := "Please enter a valid quantity"

/-- Error message of the availability guard in `handleCheckout`. -/
def msgInsufficient : String := "Insufficient hardware available"

/-- Client-side guard chain of `handleCheckout`
(`HardwareInventoryPage.js` lines 64-103): reject when no project is
selected or the quantity field is empty; parse the quantity with
`parseInt` and reject when `isNaN(qty) || qty <= 0`; reject when
`qty > selectedHardware.available`; otherwise call
`checkOutHardware(selectedProject, selectedHardware.hw_name, qty)`. -/
def handleCheckout (selectedProject : String) (quantity : NumInput)
    (selectedHardware : Hardware) : UIAction :=
  if selectedProject = "" ∨ quantity = .empty then
    .rejected msgSelectProject
  else
    match jsParseInt quantity with
    | none => .rejected msgInvalidQuantity
    | some qty =>
      if qty ≤ 0 then .rejected msgInvalidQuantity
      else if selectedHardware.available < qty then .rejected msgInsufficient
      else .submit qty

/-- Client-side guard chain of `handleCheckin`
(`HardwareInventoryPage.js` lines 108-142): identical to
`handleCheckout` except that there is no comparison against
`selectedHardware.checked_out` or against the project's recorded
quantity — only the missing-field and `isNaN(qty) || qty <= 0`
guards run before `checkInHardware` is called. -/
def handleCheckin (selectedProject : String) (quantity : NumInput) : UIAction :=
  if selectedProject = "" ∨ quantity = .empty then
    .rejected msgSelectProject
  else
    match jsParseInt quantity with
    | none => .rejected msgInvalidQuantity
    | some qty =>
      if qty ≤ 0 then .rejected msgInvalidQuantity
      else .submit qty

/-- End-to-end checkout path: the client guard chain of
`handleCheckout` followed, when it submits, by the server-side
checkout transaction with commit/abort semantics; a client-side
rejection never reaches storage. -/
def checkoutPipeline (selectedProject : String) (quantity : NumInput)
    (hw : Hardware) (checkouts : List CheckoutRecord) (now : Int)
    (username : String) : Hardware × List CheckoutRecord :=
  match handleCheckout selectedProject quantity hw with
  | .rejected _ => (hw, checkouts)
  | .submit qty => commitCheckout hw checkouts qty now username

/-- End-to-end check-in path: the client guard chain of
`handleCheckin` followed, when it submits, by the (unconditionally
committing) check-in transaction. -/
def checkinPipeline (selectedProject : String) (quantity : NumInput)
    (hw : Hardware) (checkouts : List CheckoutRecord) (now : Int) :
    Hardware × List CheckoutRecord :=
  match handleCheckin selectedProject quantity with
  | .rejected _ => (hw, checkouts)
  | .submit qty => checkinTxn hw checkouts qty now

/-- Result of an awaited axios call in `hardwareService.js`: the
request resolved with a response body, or it rejected with an error
that may carry a response (`error.response`) which in turn may carry a
truthy body (`error.response.data`).  `err none` is a network failure
with no response at all; `err (some none)` is a response whose `data`
is missing or falsy. -/
inductive ApiOutcome (α : Type) where
  | ok (data : α)
  | err (response : Option (Option α))
  deriving Repr, DecidableEq

/-- Fallback object literal returned by every catch block of
`hardwareService.js`. -/
structure ErrorBody where
  success : Bool
  error : String
  deriving Repr, DecidableEq

/-- Value returned by a `hardwareService.js` function: a server body
passed through unchanged (`response.data` or `error.response.data`),
or the connection-failure fallback object. -/
inductive ServiceResult (α : Type) where
  | body (b : α)
  | fallback (e : ErrorBody)
  deriving Repr, DecidableEq

/-- Literal `{ success: false, error: 'Failed to connect to server' }`
from the catch blocks of `hardwareService.js`. -/
def connectFail : ErrorBody :=
  { success := false, error := "Failed to connect to server" }

/-- Shared try/catch body of every exported `hardwareService.js`
function: return `response.data` on success; in the catch block return
`error.response.data` when `error.response && error.response.data`,
else the connection-failure object. -/
def serviceHandle {α : Type} : ApiOutcome α → ServiceResult α
  | .ok d => .body d
  | .err (some (some d)) => .body d
  | .err (some none) => .fallback connectFail
  | .err none => .fallback connectFail

/-- `getHardwareSets()` of `hardwareService.js` lines 18-31: GET
`/get_hardware_sets`, with the shared try/catch handling. -/
def getHardwareSets {α : Type} (outcome : ApiOutcome α) : ServiceResult α :=
  serviceHandle outcome

/-- `getHardwareAvailability(hwName)` of `hardwareService.js` lines
38-51: GET `/get_hardware_availability/:hwName`, with the shared
try/catch handling. -/
def getHardwareAvailability {α : Type} (hwName : String)
    (outcome : ApiOutcome α) : ServiceResult α :=
  serviceHandle outcome

/-- `checkOutHardware(projectId, hwName, quantity)` of
`hardwareService.js` lines 60-77: POST `/check_out` with
`parseInt(quantity)`, with the shared try/catch handling. -/
def checkOutHardware {α : Type} (projectId hwName : String)
    (quantity : NumInput) (outcome : ApiOutcome α) : ServiceResult α :=
  serviceHandle outcome

/-- `checkInHardware(projectId, hwName, quantity)` of
`hardwareService.js` lines 86-103: POST `/check_in` with
`parseInt(quantity)`, with the shared try/catch handling. -/
def checkInHardware {α : Type} (projectId hwName : String)
    (quantity : NumInput) (outcome : ApiOutcome α) : ServiceResult α :=
  serviceHandle outcome

/-- `createHardwareSet(hwName, totalCapacity, description)` of
`hardwareService.js` lines 112-129: POST `/create_hardware_set`, with
the shared try/catch handling. -/
def createHardwareSet {α : Type} (hwName : String)
    (totalCapacity : NumInput) (description : String)
    (outcome : ApiOutcome α) : ServiceResult α :=
  serviceHandle outcome

/-- Serialized execution of `n` checkout transactions, each requesting
1 unit, against the same hardware document (each transaction is atomic
with respect to the others, so any concurrent schedule of the `n`
calls is one of these serializations; with identical single-unit
requests the order does not matter).  Returns
((number of successful calls, number of calls failing with
`insufficientAvailability`), final state). -/
def runSingleReserves (hw : Hardware) (checkouts : List CheckoutRecord)
    (now : Int) (username : String) :
    Nat → (Nat × Nat) × (Hardware × List CheckoutRecord)
  | 0 => ((0, 0), (hw, checkouts))
  | n + 1 =>
    match checkoutTxn hw checkouts 1 now username with
    | .ok (hw1, l1) =>
      let r := runSingleReserves hw1 l1 now username n
      ((r.1.1 + 1, r.1.2), r.2)
    | .error _ =>
      let r := runSingleReserves hw checkouts now username n
      ((r.1.1, r.1.2 + 1), r.2)

/-- Concrete hardware-set name used in the documentation's example
documents and transactions. -/
def arduinoUno : String := "Arduino Uno"

/-- Concrete username used in the documentation's example
documents. -/
def johnDoe : String := "john_doe"

/-- Concrete project-id string for concrete runs. -/
def projectA : String := "projA"

/-- Freshly created hardware set with capacity 10: `checked_out = 0`,
`available = total_capacity`. -/
def freshHw10 : Hardware :=
  { hw_name := arduinoUno, total_capacity := 10, available := 10,
    checked_out := 0, updated_at := 0 }

/-- Second hardware-set name from the documentation's example project
document, used for cross-type ledger examples. -/
def dht22 : String := "DHT22 Sensors"

/-- State reached from `freshHw10` by a committed checkout of 2
units. -/
def c1mid : Hardware × List CheckoutRecord :=
  commitCheckout freshHw10 [] 2 1 johnDoe

/-- State reached from `c1mid` by a check-in of 5 units (more than the
2 units checked out). -/
def c1end : Hardware × List CheckoutRecord :=
  checkinTxn c1mid.1 c1mid.2 5 2

/-- Claim C1: starting from creation (`checked_out = 0`), every
completed sequence of reserve/release operations keeps
`0 ≤ checked_out ≤ total_capacity` and
`available + checked_out = total_capacity`.  The code violates the
bound: from a fresh capacity-10 set, a checkout of 2 units followed by
a check-in of 5 units — which every guard present in the repository
accepts (`handleCheckin` only requires a positive integer, and the
check-in transaction checks nothing) — drives `checked_out` to -3 and
`available` to 13, contradicting the validation rules stated in
`docs/database-schema.md` lines 201-209. -/
theorem C1_checkin_breaks_bounds :
    checkoutTxn freshHw10 [] 2 1 johnDoe = .ok c1mid ∧
    handleCheckin projectA (.num 5) = .submit 5 ∧
    c1end.1.checked_out = -3 ∧
    c1end.1.checked_out < 0 ∧
    c1end.1.available = 13 ∧
    c1end.1.available + c1end.1.checked_out = c1end.1.total_capacity :=
  ⟨rfl, by decide, by decide, by decide, by decide, by decide⟩

/-- Claim C2: a reserve requesting strictly more than the current
availability fails with the insufficient-availability error and, the
transaction aborting, commits no change to the hardware counters or
the project ledger. -/
theorem C2_insufficient_reserve_no_change (hw : Hardware)
    (l : List CheckoutRecord) (q now : Int) (u : String)
    (h : q > hw.available) :
    checkoutTxn hw l q now u = .error .insufficientAvailability ∧
    commitCheckout hw l q now u = (hw, l) := by
  have hc : hw.available < q := h
  constructor
  · unfold checkoutTxn
    rw [if_pos hc]
  · unfold commitCheckout checkoutTxn
    rw [if_pos hc]

/-- Witness for C2 at a concrete input: requesting 11 from a fresh
capacity-10 set. -/
theorem C2_witness :
    (11 : Int) > freshHw10.available ∧
    (checkoutTxn freshHw10 [] 11 1 johnDoe = .error .insufficientAvailability ∧
     commitCheckout freshHw10 [] 11 1 johnDoe = (freshHw10, [])) :=
  ⟨by decide, C2_insufficient_reserve_no_change freshHw10 [] 11 1 johnDoe (by decide)⟩

/-- Hardware state with 2 of 10 units checked out, used for the
check-in counterexamples. -/
def c3hw : Hardware :=
  { hw_name := arduinoUno, total_capacity := 10, available := 8,
    checked_out := 2, updated_at := 0 }

/-- Claim C3: a release with no CheckoutRecord for the
(project, hardwareType) pair must fail with OverRelease and change
nothing.  The code has no such guard: with an empty project ledger the
check-in transaction still increments `available` by the returned
quantity and decrements `checked_out`, mutating the hardware counters
(it never fails), contradicting the check-in error documented in the
repository's REST API specification ("Invalid quantity or not checked
out") and the validation rule `checked_out ≥ 0`. -/
theorem C3_unguarded_checkin_mutates :
    handleCheckin projectA (.num 5) = .submit 5 ∧
    (checkinTxn c3hw [] 5 7).1.available = 13 ∧
    (checkinTxn c3hw [] 5 7).1.checked_out = -3 ∧
    (checkinTxn c3hw [] 5 7).1 ≠ c3hw := by
  decide

/-- State reached from `freshHw10` by two committed checkouts of 5
units each for the same project and the same hardware set. -/
def c4run : Hardware × List CheckoutRecord :=
  commitCheckout (commitCheckout freshHw10 [] 5 1 johnDoe).1
    (commitCheckout freshHw10 [] 5 1 johnDoe).2 5 2 johnDoe

/-- Checkout record produced by the first checkout of `c4run`. -/
def c4rec1 : CheckoutRecord :=
  { hw_name := arduinoUno, quantity := 5, checked_out_at := 1,
    checked_out_by := johnDoe }

/-- Checkout record produced by the second checkout of `c4run`. -/
def c4rec2 : CheckoutRecord :=
  { hw_name := arduinoUno, quantity := 5, checked_out_at := 2,
    checked_out_by := johnDoe }

/-- Counterexample to claim C4: two successful reserves of 5 units of
the same hardware set by the same project leave the project's ledger
with two records for that set (each of quantity 5), not one record of
quantity 10 — `$push` always appends a fresh record. -/
theorem C4_counterexample :
    c4run.2 = [c4rec1, c4rec2] ∧
    (c4run.2.filter (fun r => r.hw_name = arduinoUno)).length = 2 ∧
    c4run.1.checked_out = 10 := by
  decide

/-- Claim C4 as amended: a successful reserve never merges into an
existing record; it appends exactly one fresh CheckoutRecord (with the
requested quantity) at the end of the project's ledger, so repeated
reserves for the same (project, hardwareType) pair accumulate
duplicate records. -/
theorem C4_amended_checkout_appends (hw hw1 : Hardware)
    (l l1 : List CheckoutRecord) (q now : Int) (u : String)
    (h : checkoutTxn hw l q now u = .ok (hw1, l1)) :
    l1 = l ++ [{ hw_name := hw.hw_name, quantity := q,
                 checked_out_at := now, checked_out_by := u }] := by
  unfold checkoutTxn at h
  split at h
  · exact Except.noConfusion h
  · rw [Except.ok.injEq, Prod.mk.injEq] at h
    exact h.2.symm

/-- Witness for the amended C4 at a concrete input: the first checkout
of `c4run`. -/
theorem C4_amended_witness : [c4rec1] = [] ++ [c4rec1] :=
  C4_amended_checkout_appends freshHw10
    { hw_name := arduinoUno, total_capacity := 10, available := 5,
      checked_out := 5, updated_at := 1 }
    [] [c4rec1] 5 1 johnDoe rfl

/-- Claim C5: for a positive quantity within availability, a
successful reserve immediately followed by a release of the same
quantity restores the hardware document's `available` and
`checked_out` (and `total_capacity`) to their pre-reserve values
exactly. -/
theorem C5_roundtrip (hw : Hardware) (l : List CheckoutRecord)
    (q now1 now2 : Int) (u : String)
    (hpos : 0 < q) (hle : q ≤ hw.available) :
    ∃ hw1 l1,
      checkoutTxn hw l q now1 u = .ok (hw1, l1) ∧
      (checkinTxn hw1 l1 q now2).1.available = hw.available ∧
      (checkinTxn hw1 l1 q now2).1.checked_out = hw.checked_out ∧
      (checkinTxn hw1 l1 q now2).1.total_capacity = hw.total_capacity := by
  have hc : ¬ (hw.available < q) := not_lt.mpr hle
  have hok : checkoutTxn hw l q now1 u =
      .ok ({ hw with
              available := hw.available - q,
              checked_out := hw.checked_out + q,
              updated_at := now1 },
           l ++ [{ hw_name := hw.hw_name,
                   quantity := q,
                   checked_out_at := now1,
                   checked_out_by := u }]) := by
    unfold checkoutTxn
    rw [if_neg hc]
  refine ⟨_, _, hok, ?_, ?_, ?_⟩
  · show hw.available - q + q = hw.available
    omega
  · show hw.checked_out + q - q = hw.checked_out
    omega
  · rfl

/-- Witness for C5 at a concrete input: reserving then releasing 5
units on a fresh capacity-10 set. -/
theorem C5_witness :
    (0 : Int) < 5 ∧ (5 : Int) ≤ freshHw10.available ∧
    (∃ hw1 l1,
      checkoutTxn freshHw10 [] 5 1 johnDoe = .ok (hw1, l1) ∧
      (checkinTxn hw1 l1 5 2).1.available = freshHw10.available ∧
      (checkinTxn hw1 l1 5 2).1.checked_out = freshHw10.checked_out ∧
      (checkinTxn hw1 l1 5 2).1.total_capacity = freshHw10.total_capacity) :=
  ⟨by decide, by decide, C5_roundtrip freshHw10 [] 5 1 2 johnDoe (by decide) (by decide)⟩

/-- Claim C6: the availability comparison is strict — reserving
exactly the remaining amount succeeds and leaves `available = 0`, and
a subsequent reserve of a single unit fails with
insufficient-availability. -/
theorem C6_exact_boundary (hw : Hardware) (l : List CheckoutRecord)
    (now1 now2 : Int) (u1 u2 : String) (hpos : 0 < hw.available) :
    ∃ hw1 l1,
      checkoutTxn hw l hw.available now1 u1 = .ok (hw1, l1) ∧
      hw1.available = 0 ∧
      checkoutTxn hw1 l1 1 now2 u2 = .error .insufficientAvailability := by
  have hok : checkoutTxn hw l hw.available now1 u1 =
      .ok ({ hw with
              available := hw.available - hw.available,
              checked_out := hw.checked_out + hw.available,
              updated_at := now1 },
           l ++ [{ hw_name := hw.hw_name,
                   quantity := hw.available,
                   checked_out_at := now1,
                   checked_out_by := u1 }]) := by
    unfold checkoutTxn
    rw [if_neg (lt_irrefl hw.available)]
  refine ⟨_, _, hok, ?_, ?_⟩
  · show hw.available - hw.available = 0
    omega
  · unfold checkoutTxn
    rw [if_pos]
    show hw.available - hw.available < 1
    omega

/-- Witness for C6 at a concrete input: a fresh capacity-10 set has
`available = 10 > 0`. -/
theorem C6_witness :
    (0 : Int) < freshHw10.available ∧
    (∃ hw1 l1,
      checkoutTxn freshHw10 [] freshHw10.available 1 johnDoe = .ok (hw1, l1) ∧
      hw1.available = 0 ∧
      checkoutTxn hw1 l1 1 2 johnDoe = .error .insufficientAvailability) :=
  ⟨by decide, C6_exact_boundary freshHw10 [] 1 2 johnDoe johnDoe (by decide)⟩

/-- Form input string "5.7": a numeric, non-integer quantity. -/
def inputFive7 : NumInput := .num (57 / 10)

/-- Counterexample to claim C7: the non-integer input 5.7 is not
rejected.  `parseInt` truncates it to 5, the guard chain of
`handleCheckout` accepts 5, and the checkout proceeds, mutating the
hardware counters (available drops from 10 to 5). -/
theorem C7_counterexample :
    jsParseInt inputFive7 = some 5 ∧
    handleCheckout projectA inputFive7 freshHw10 = .submit 5 ∧
    (checkoutPipeline projectA inputFive7 freshHw10 [] 1 johnDoe).1.available = 5 ∧
    checkoutPipeline projectA inputFive7 freshHw10 [] 1 johnDoe ≠ (freshHw10, []) := by
  have h0 : jsParseInt inputFive7 = some 5 := by
    unfold jsParseInt inputFive7
    norm_num
    decide
  have h1 : handleCheckout projectA inputFive7 freshHw10 = .submit 5 := by
    unfold handleCheckout
    rw [if_neg (by decide), h0]
    decide
  have h2 : checkoutPipeline projectA inputFive7 freshHw10 [] 1 johnDoe =
      commitCheckout freshHw10 [] 5 1 johnDoe := by
    unfold checkoutPipeline
    rw [h1]
  refine ⟨h0, h1, ?_, ?_⟩
  · rw [h2]
    decide
  · rw [h2]
    decide

/-- Claim C7 as amended: a quantity input that fails to parse
(`NaN`) or whose `parseInt` truncation is non-positive is rejected by
the client guard chain before any request, leaving all state
unchanged, for both checkout and check-in; non-integer numeric inputs,
however, are truncated by `parseInt` and processed (see the
counterexample). -/
theorem C7_amended_nonpositive_rejected (p : String) (input : NumInput)
    (hw : Hardware) (l : List CheckoutRecord) (now : Int) (u : String)
    (h : jsParseInt input = none ∨ ∃ q, jsParseInt input = some q ∧ q ≤ 0) :
    checkoutPipeline p input hw l now u = (hw, l) ∧
    checkinPipeline p input hw l now = (hw, l) ∧
    (∃ m, handleCheckout p input hw = .rejected m) ∧
    (∃ m, handleCheckin p input = .rejected m) := by
  by_cases hp : p = "" ∨ input = .empty
  · have h1 : handleCheckout p input hw = .rejected msgSelectProject := by
      unfold handleCheckout
      rw [if_pos hp]
    have h2 : handleCheckin p input = .rejected msgSelectProject := by
      unfold handleCheckin
      rw [if_pos hp]
    refine ⟨?_, ?_, ⟨_, h1⟩, ⟨_, h2⟩⟩
    · unfold checkoutPipeline
      rw [h1]
    · unfold checkinPipeline
      rw [h2]
  · have h1 : handleCheckout p input hw = .rejected msgInvalidQuantity := by
      rcases h with hnone | ⟨q, hq, hq0⟩
      · simp [handleCheckout, hp, hnone]
      · simp [handleCheckout, hp, hq, hq0]
    have h2 : handleCheckin p input = .rejected msgInvalidQuantity := by
      rcases h with hnone | ⟨q, hq, hq0⟩
      · simp [handleCheckin, hp, hnone]
      · simp [handleCheckin, hp, hq, hq0]
    refine ⟨?_, ?_, ⟨_, h1⟩, ⟨_, h2⟩⟩
    · unfold checkoutPipeline
      rw [h1]
    · unfold checkinPipeline
      rw [h2]

/-- Witness for the amended C7 at a concrete input: the quantity
input -3 is rejected everywhere and nothing changes. -/
theorem C7_amended_witness :
    checkoutPipeline projectA (.num (-3)) freshHw10 [] 1 johnDoe = (freshHw10, []) ∧
    checkinPipeline projectA (.num (-3)) freshHw10 [] 1 = (freshHw10, []) ∧
    (∃ m, handleCheckout projectA (.num (-3)) freshHw10 = .rejected m) ∧
    (∃ m, handleCheckin projectA (.num (-3)) = .rejected m) :=
  C7_amended_nonpositive_rejected projectA (.num (-3)) freshHw10 [] 1 johnDoe
    (Or.inr ⟨-3, by decide, by decide⟩)

/-- Claim C9: every exported function of the hardware service layer
is total over server outcomes — whatever the axios call produces, the
function returns a value, namely the server-provided body when one
exists and otherwise the connection-failure object; in particular a
failure with no response yields
{ success: false, error: 'Failed to connect to server' }. -/
theorem C9_service_layer_total (α : Type) (projectId hwName description : String)
    (quantity totalCapacity : NumInput) (o : ApiOutcome α) :
    ((∃ b, getHardwareSets o = .body b) ∨ getHardwareSets o = .fallback connectFail) ∧
    ((∃ b, getHardwareAvailability hwName o = .body b) ∨
      getHardwareAvailability hwName o = .fallback connectFail) ∧
    ((∃ b, checkOutHardware projectId hwName quantity o = .body b) ∨
      checkOutHardware projectId hwName quantity o = .fallback connectFail) ∧
    ((∃ b, checkInHardware projectId hwName quantity o = .body b) ∨
      checkInHardware projectId hwName quantity o = .fallback connectFail) ∧
    ((∃ b, createHardwareSet hwName totalCapacity description o = .body b) ∨
      createHardwareSet hwName totalCapacity description o = .fallback connectFail) ∧
    getHardwareSets (.err none : ApiOutcome α) = .fallback connectFail ∧
    getHardwareAvailability hwName (.err none : ApiOutcome α) = .fallback connectFail ∧
    checkOutHardware projectId hwName quantity (.err none : ApiOutcome α) =
      .fallback connectFail ∧
    checkInHardware projectId hwName quantity (.err none : ApiOutcome α) =
      .fallback connectFail ∧
    createHardwareSet hwName totalCapacity description (.err none : ApiOutcome α) =
      .fallback connectFail := by
  have h : ∀ o1 : ApiOutcome α,
      (∃ b, serviceHandle o1 = ServiceResult.body b) ∨
      serviceHandle o1 = .fallback connectFail := by
    intro o1
    cases o1 with
    | ok d => exact .inl ⟨d, rfl⟩
    | err resp =>
      cases resp with
      | none => exact .inr rfl
      | some s =>
        cases s with
        | none => exact .inr rfl
        | some d => exact .inl ⟨d, rfl⟩
  exact ⟨h o, h o, h o, h o, h o, rfl, rfl, rfl, rfl, rfl⟩

/-- Claim C10: after any check-in, every record remaining in the
project's ledger has positive quantity, and any record with
non-positive quantity — whatever its hardware type, not only the one
being returned — is gone from the ledger: the `$pull` cleanup is not
keyed to `hw_name`. -/
theorem C10_cleanup_every_type (hw : Hardware) (l : List CheckoutRecord)
    (q now : Int) (r : CheckoutRecord) :
    (r ∈ (checkinTxn hw l q now).2 → 0 < r.quantity) ∧
    (r.quantity ≤ 0 → r ∉ (checkinTxn hw l q now).2) := by
  have h1 : r ∈ (checkinTxn hw l q now).2 → 0 < r.quantity := by
    intro hr
    unfold checkinTxn pullNonPositive at hr
    have hb := (List.mem_filter.mp hr).2
    simp only [Bool.not_eq_true', decide_eq_false_iff_not, not_le] at hb
    exact hb
  exact ⟨h1, fun hq hr => absurd (h1 hr) (not_lt.mpr hq)⟩

/-- Record of a different hardware set (DHT22) with quantity 0,
sitting in a ledger while Arduino Uno units are checked in. -/
def dhtRec0 : CheckoutRecord :=
  { hw_name := dht22, quantity := 0, checked_out_at := 0,
    checked_out_by := johnDoe }

/-- Witness for C10 at a concrete input: checking in 5 Arduino Uno
units removes the zero-quantity DHT22 record of the same project. -/
theorem C10_witness : dhtRec0 ∉ (checkinTxn freshHw10 [dhtRec0] 5 1).2 :=
  (C10_cleanup_every_type freshHw10 [dhtRec0] 5 1 dhtRec0).2 (by decide)

/-- Counting lemma for serialized single-unit reserves: with
`available = K`, running `n` single-unit checkout transactions
produces `min K n` successes and `n - min K n`
insufficient-availability failures, decreases `available` by
`min K n`, increases `checked_out` by `min K n`, and never changes
`total_capacity`. -/
theorem runSingleReserves_count (n : Nat) :
    ∀ (hw : Hardware) (l : List CheckoutRecord) (now : Int) (u : String)
      (K : Nat), hw.available = (K : Int) →
      (runSingleReserves hw l now u n).1.1 = min K n ∧
      (runSingleReserves hw l now u n).1.2 = n - min K n ∧
      (runSingleReserves hw l now u n).2.1.available =
        (K : Int) - ((min K n : Nat) : Int) ∧
      (runSingleReserves hw l now u n).2.1.checked_out =
        hw.checked_out + ((min K n : Nat) : Int) ∧
      (runSingleReserves hw l now u n).2.1.total_capacity =
        hw.total_capacity := by
  induction n with
  | zero =>
    intro hw l now u K hav
    refine ⟨?_, ?_, ?_, ?_, ?_⟩ <;> simp only [runSingleReserves] <;> omega
  | succ n ih =>
    intro hw l now u K hav
    match K with
    | 0 =>
      have hc : checkoutTxn hw l 1 now u = .error .insufficientAvailability := by
        unfold checkoutTxn
        rw [if_pos (by omega)]
      obtain ⟨h1, h2, h3, h4, h5⟩ := ih hw l now u 0 hav
      refine ⟨?_, ?_, ?_, ?_, ?_⟩ <;>
        simp only [runSingleReserves, hc, h1, h2, h3, h4, h5] <;> omega
    | K1 + 1 =>
      have hc : checkoutTxn hw l 1 now u =
          .ok ({ hw with
                  available := hw.available - 1,
                  checked_out := hw.checked_out + 1,
                  updated_at := now },
               l ++ [{ hw_name := hw.hw_name,
                       quantity := 1,
                       checked_out_at := now,
                       checked_out_by := u }]) := by
        unfold checkoutTxn
        rw [if_neg (by omega)]
      obtain ⟨h1, h2, h3, h4, h5⟩ :=
        ih { hw with
              available := hw.available - 1,
              checked_out := hw.checked_out + 1,
              updated_at := now }
           (l ++ [{ hw_name := hw.hw_name,
                    quantity := 1,
                    checked_out_at := now,
                    checked_out_by := u }])
           now u K1 (by show hw.available - 1 = (K1 : Int); omega)
      refine ⟨?_, ?_, ?_, ?_, ?_⟩ <;>
        simp only [runSingleReserves, hc, h1, h2, h3, h4, h5] <;> omega

/-- Claim C8: each checkout transaction is atomic with respect to all
others on the same hardware set, so any concurrent execution of N
single-unit reserve calls is one of their serializations — all of
which this theorem covers (with identical single-unit requests, every
interleaving is the same fold).  Starting from `available = K` with
the sum invariant, `K < N` of the calls succeed, `N - K` fail with
insufficient-availability, and `checked_out` ends exactly at
`total_capacity`: two callers can never both be satisfied from the
last remaining unit. -/
theorem C8_no_overallocation (hw : Hardware) (l : List CheckoutRecord)
    (now : Int) (u : String) (K N : Nat)
    (hav : hw.available = (K : Int))
    (hsum : hw.available + hw.checked_out = hw.total_capacity)
    (hKN : K < N) :
    (runSingleReserves hw l now u N).1.1 = K ∧
    (runSingleReserves hw l now u N).1.2 = N - K ∧
    (runSingleReserves hw l now u N).2.1.checked_out =
      (runSingleReserves hw l now u N).2.1.total_capacity := by
  obtain ⟨h1, h2, h3, h4, h5⟩ := runSingleReserves_count N hw l now u K hav
  exact ⟨by omega, by omega, by omega⟩

/-- Hardware set with capacity 3, one unit already checked out and
two available, used as the concrete C8 scenario. -/
def c8hw : Hardware :=
  { hw_name := arduinoUno, total_capacity := 3, available := 2,
    checked_out := 1, updated_at := 0 }

/-- Witness for C8 at a concrete input: 3 single-unit reserves against
2 available units — 2 succeed, 1 fails, `checked_out` ends at the
total capacity. -/
theorem C8_witness :
    c8hw.available = ((2 : Nat) : Int) ∧
    c8hw.available + c8hw.checked_out = c8hw.total_capacity ∧
    2 < 3 ∧
    ((runSingleReserves c8hw [] 0 johnDoe 3).1.1 = 2 ∧
     (runSingleReserves c8hw [] 0 johnDoe 3).1.2 = 3 - 2 ∧
     (runSingleReserves c8hw [] 0 johnDoe 3).2.1.checked_out =
       (runSingleReserves c8hw [] 0 johnDoe 3).2.1.total_capacity) :=
  ⟨by decide, by decide, by decide,
   C8_no_overallocation c8hw [] 0 johnDoe 2 3 (by decide) (by decide) (by decide)⟩
